import Mathlib

set_option autoImplicit false

/-! Shallow embedding of the instrumentation and session-persistence core of
the vehicle-launch Slack bot: the DatabaseManager operations of database.py
and the MonitoringManager / monitor_command machinery of monitoring.py.
Timestamps are modelled as integer seconds, JSON object payloads as
association lists, and the dynamic values that can sit on an ORM row
attribute as an inductive Value type. -/

/-- A JSON object payload (a Python dict with opaque entries), modelled as an
association list of string keys and string values. -/
abbrev Dict := List (String × String)

/-- A dynamic Python value as it can sit on an ORM row attribute. The
constructor vjson d stands for the JSON text json.dumps produces from the
dict d; such a text is at least two characters long, so it is always truthy,
while a live dict (vdict) is truthy only when non-empty. -/
inductive Value where
  | vstr (s : String)
  | vdict (d : Dict)
  | vjson (d : Dict)
  | vint (n : Int)
  | vbool (b : Bool)
  | vnone
deriving DecidableEq, Repr

/-- Python truthiness of a dynamic value. -/
def Value.truthy : Value → Bool
  | .vstr s => s != ""
  | .vdict d => !d.isEmpty
  | .vjson _ => true
  | .vint n => n != 0
  | .vbool b => b
  | .vnone => false

/-- json.loads applied to a stored column value: it succeeds exactly on JSON
text and raises (modelled as none) on anything else. -/
def loads : Value → Option Dict
  | .vjson d => some d
  | _ => none

/-- Python truthiness of an optional dict argument, as in the guard
json.dumps(x) if x else None of store_user_session. -/
def optTruthy : Option Dict → Bool
  | some d => !d.isEmpty
  | none => false

/-- One row of the user_sessions table. Attribute values are dynamic,
mirroring what setattr can place on the ORM object. -/
structure UserSessionRow where
  id : Value
  user_id : Value
  launch_date : Value
  databricks_data : Value
  file_data : Value
  created_at : Value
  updated_at : Value
  is_active : Value
deriving DecidableEq, Repr

/-- One row of the bot_metrics table. -/
structure BotMetricsRow where
  user_id : String
  command : String
  launch_date : Option String
  response_time : Option Int
  success : Bool
  error_message : Option String
  created_at : Int
deriving DecidableEq, Repr

/-- The persistent store: both tables in insertion order, plus the next
autoincrement key for user_sessions. -/
structure DB where
  sessions : List UserSessionRow
  metrics : List BotMetricsRow
  nextId : Int
deriving DecidableEq, Repr

/-- A store with no rows, as right after table creation. -/
def emptyDB : DB := { sessions := [], metrics := [], nextId := 1 }

/-- Outcome of one pass through the get_session context manager on an
available gateway: the resulting store, whether commit or rollback ran,
whether the session was closed, and the value or exception handed back. -/
structure UoWRun (E A : Type) where
  finalDb : DB
  committed : Bool
  rolledBack : Bool
  closed : Bool
  outcome : Except E A
deriving Repr

/-- The get_session context manager of database.py on its available branch:
run the body on the current store; on a normal return commit the written
state, on an exception roll back to the entry state and re-raise; the
finally clause closes the session on both paths. -/
def run_get_session {E A : Type} (db : DB) (block : DB → Except E (DB × A)) :
    UoWRun E A :=
  match block db with
  | .ok (db2, a) =>
      { finalDb := db2, committed := true, rolledBack := false,
        closed := true, outcome := .ok a }
  | .error e =>
      { finalDb := db, committed := false, rolledBack := true,
        closed := true, outcome := .error e }

/-- The filter user_id == uid AND is_active == True shared by the session
queries of database.py. -/
def isActiveFor (uid : String) (r : UserSessionRow) : Bool :=
  r.user_id == Value.vstr uid && r.is_active == Value.vbool true

/-- The UPDATE issued by store_user_session: set is_active = False on every
active row of this user, leaving all other rows untouched. -/
def deactivate (uid : String) (r : UserSessionRow) : UserSessionRow :=
  if isActiveFor uid r then { r with is_active := Value.vbool false } else r

/-- The fresh active row store_user_session inserts: payload columns hold
json.dumps of each truthy dict argument and NULL otherwise, both timestamp
defaults fire at insertion time, and is_active is set. -/
def freshRow (uid ld : String) (p s : Option Dict) (now : Int)
    (nid : Int) : UserSessionRow :=
  { id := .vint nid
    user_id := .vstr uid
    launch_date := .vstr ld
    databricks_data := if optTruthy p then .vjson (p.getD []) else .vnone
    file_data := if optTruthy s then .vjson (s.getD []) else .vnone
    created_at := .vint now
    updated_at := .vint now
    is_active := .vbool true }

/-- Body of store_user_session inside its unit of work: deactivate the
active rows of the user, then insert the fresh active row. -/
def store_user_session_block (uid ld : String) (p s : Option Dict)
    (now : Int) (db : DB) : Except Unit (DB × Unit) :=
  .ok ({ sessions := (db.sessions.map (deactivate uid))
                      ++ [freshRow uid ld p s now db.nextId]
         metrics := db.metrics
         nextId := db.nextId + 1 }, ())

/-- store_user_session of database.py: a silent no-op when storage is
unavailable, otherwise the deactivate-then-insert block executed inside one
get_session unit of work. -/
def store_user_session (avail : Bool) (db : DB) (uid ld : String)
    (p s : Option Dict) (now : Int) : DB :=
  if avail then
    (run_get_session db (store_user_session_block uid ld p s now)).finalDb
  else db

/-- The payload dictionary get_user_session hands back when an active row
exists. -/
structure SessionView where
  launch_date : Value
  databricks_data : Dict
  file_data : Option Dict
  created_at : Value
  updated_at : Value
deriving DecidableEq, Repr

/-- get_user_session of database.py: None when storage is unavailable, None
when no active row matches, otherwise the deserialized payload, where a
falsy databricks_data column turns into an empty dict while a falsy
file_data column turns into None; a loads failure raises and is swallowed
into None by the outer handler. -/
def get_user_session (avail : Bool) (db : DB) (uid : String) :
    Option SessionView :=
  if avail then
    match db.sessions.find? (isActiveFor uid) with
    | none => none
    | some r =>
      let dbx : Option Dict :=
        if r.databricks_data.truthy then loads r.databricks_data else some []
      let fd : Option (Option Dict) :=
        if r.file_data.truthy then (loads r.file_data).map some else some none
      match dbx, fd with
      | some d, some f =>
          some { launch_date := r.launch_date, databricks_data := d,
                 file_data := f, created_at := r.created_at,
                 updated_at := r.updated_at }
      | _, _ => none
  else none

lemma isActiveFor_deactivate (uid : String) (r : UserSessionRow) :
    isActiveFor uid (deactivate uid r) = false := by
  unfold deactivate
  by_cases h : isActiveFor uid r = true
  · simp only [h, if_true]
    simp [isActiveFor]
  · have h2 : isActiveFor uid r = false := Bool.eq_false_iff.mpr h
    simp only [h2, Bool.false_eq_true, if_false]

lemma find?_deactivated (uid : String) (l : List UserSessionRow) :
    (l.map (deactivate uid)).find? (isActiveFor uid) = none := by
  induction l with
  | nil => rfl
  | cons hd tl ih =>
      simp [List.find?, isActiveFor_deactivate uid hd, ih]

lemma filter_deactivated (uid : String) (l : List UserSessionRow) :
    (l.map (deactivate uid)).filter (isActiveFor uid) = [] := by
  induction l with
  | nil => rfl
  | cons hd tl ih =>
      simp [List.filter, isActiveFor_deactivate uid hd, ih]

lemma isActiveFor_freshRow (uid ld : String) (p s : Option Dict)
    (now : Int) (nid : Int) :
    isActiveFor uid (freshRow uid ld p s now nid) = true := by
  simp [isActiveFor, freshRow]

lemma sessions_after_store (db : DB) (uid ld : String) (p s : Option Dict)
    (now : Int) :
    (store_user_session true db uid ld p s now).sessions
      = db.sessions.map (deactivate uid)
        ++ [freshRow uid ld p s now db.nextId] := rfl

/-- C1: after any store_user_session call on an available backend, whatever
the prior contents of the store (hence after each call of any sequence of
such calls), exactly one user_sessions row for that user has
is_active = true: the block first deactivates every active row of the user
and then inserts the one fresh active row inside a single unit of work. -/
theorem store_user_session_single_active (db : DB) (uid ld : String)
    (p s : Option Dict) (now : Int) :
    ((store_user_session true db uid ld p s now).sessions.filter
        (isActiveFor uid)).length = 1 := by
  rw [sessions_after_store]
  simp [List.filter_append, filter_deactivated uid db.sessions,
    List.filter, isActiveFor_freshRow]

lemma find?_append_of_none {α : Type} (p : α → Bool) (l1 l2 : List α)
    (h : l1.find? p = none) : (l1 ++ l2).find? p = l2.find? p := by
  induction l1 with
  | nil => rfl
  | cons hd tl ih =>
      rcases List.find?_eq_none.mp h hd (by simp) with hhd
      have htl : tl.find? p = none := by
        apply List.find?_eq_none.mpr
        intro x hx
        exact List.find?_eq_none.mp h x (by simp [hx])
      have hhd2 : p hd = false := Bool.eq_false_iff.mpr hhd
      simp [List.find?, hhd2, ih htl]

lemma find?_after_store (db : DB) (uid ld : String) (p s : Option Dict)
    (now : Int) :
    (store_user_session true db uid ld p s now).sessions.find?
        (isActiveFor uid) = some (freshRow uid ld p s now db.nextId) := by
  rw [sessions_after_store]
  rw [find?_append_of_none _ _ _ (find?_deactivated uid db.sessions)]
  simp [List.find?, isActiveFor_freshRow]

/-- C9: round-tripping a payload through store_user_session and then
get_user_session on available storage is asymmetric between the two payload
columns: the returned databricks_data is the stored primary dict when that
dict was truthy and the empty dict otherwise, while the returned file_data
is the stored supplementary dict when truthy and None otherwise. -/
theorem store_get_payload_asymmetry (db : DB) (uid ld : String)
    (p s : Option Dict) (now : Int) :
    get_user_session true (store_user_session true db uid ld p s now) uid =
      some { launch_date := .vstr ld
             databricks_data := if optTruthy p then p.getD [] else []
             file_data := if optTruthy s then some (s.getD []) else none
             created_at := .vint now
             updated_at := .vint now } := by
  unfold get_user_session
  rw [if_pos rfl, find?_after_store]
  by_cases hp : optTruthy p = true <;> by_cases hs : optTruthy s = true <;>
    simp [freshRow, hp, hs, Value.truthy, loads]

/-- C5 counterexample: on an empty store, get_user_session with storage
unavailable and get_user_session with storage available but no active row
return the very same value None, so the two outcomes are not
distinguishable by the caller. -/
theorem get_user_session_conflates_unavailable :
    get_user_session false emptyDB "U1" = none
    ∧ get_user_session true emptyDB "U1" = none
    ∧ get_user_session false emptyDB "U1" = get_user_session true emptyDB "U1" :=
  ⟨rfl, rfl, rfl⟩

/-- C5 amended: get_user_session returns None when storage is unavailable
and also returns None when no active row exists for the user, so the two
cases collapse to one value and callers cannot branch on them. -/
theorem get_user_session_none_both_cases (db db2 : DB) (uid : String)
    (h : db2.sessions.find? (isActiveFor uid) = none) :
    get_user_session false db uid = none
    ∧ get_user_session true db2 uid = none
    ∧ get_user_session false db uid = get_user_session true db2 uid := by
  refine ⟨rfl, ?_, ?_⟩ <;> simp [get_user_session, h]

theorem get_user_session_none_both_cases_witness :
    get_user_session false emptyDB "U7" = none
    ∧ get_user_session true emptyDB "U7" = none :=
  ⟨(get_user_session_none_both_cases emptyDB emptyDB "U7" rfl).1,
   (get_user_session_none_both_cases emptyDB emptyDB "U7" rfl).2.1⟩

/-- C2: the get_session context manager on an available gateway always
closes the session, commits the written state and passes the value through
when the block returns normally, and rolls back to the entry state while
re-raising the identical exception when the block raises. -/
theorem get_session_unit_of_work_contract {E A : Type} (db : DB)
    (block : DB → Except E (DB × A)) :
    (run_get_session db block).closed = true
    ∧ (∀ db2 a, block db = .ok (db2, a) →
        (run_get_session db block).committed = true
        ∧ (run_get_session db block).rolledBack = false
        ∧ (run_get_session db block).outcome = .ok a
        ∧ (run_get_session db block).finalDb = db2)
    ∧ (∀ e, block db = .error e →
        (run_get_session db block).committed = false
        ∧ (run_get_session db block).rolledBack = true
        ∧ (run_get_session db block).outcome = .error e
        ∧ (run_get_session db block).finalDb = db) := by
  refine ⟨?_, ?_, ?_⟩
  · unfold run_get_session
    cases h : block db with
    | ok v => rfl
    | error e => rfl
  · intro db2 a h
    unfold run_get_session
    rw [h]
    exact ⟨rfl, rfl, rfl, rfl⟩
  · intro e h
    unfold run_get_session
    rw [h]
    exact ⟨rfl, rfl, rfl, rfl⟩

theorem get_session_unit_of_work_contract_witness :
    (run_get_session emptyDB (fun db => (.ok (db, 42) : Except String (DB × Nat)))).outcome = .ok 42
    ∧ (run_get_session emptyDB (fun _ => (.error "boom" : Except String (DB × Nat)))).rolledBack = true
    ∧ (run_get_session emptyDB (fun _ => (.error "boom" : Except String (DB × Nat)))).closed = true :=
  ⟨((get_session_unit_of_work_contract emptyDB
      (fun db => (.ok (db, 42) : Except String (DB × Nat)))).2.1 emptyDB 42 rfl).2.2.1,
   ((get_session_unit_of_work_contract emptyDB
      (fun _ => (.error "boom" : Except String (DB × Nat)))).2.2 "boom" rfl).2.1,
   (get_session_unit_of_work_contract emptyDB
      (fun _ => (.error "boom" : Except String (DB × Nat)))).1⟩

/-- Running per-command tuple kept in MonitoringManager.command_counter. -/
structure CmdStats where
  success : Nat
  failure : Nat
  total_duration : Rat
  count : Nat
deriving DecidableEq, Repr

/-- Running per-error-type tuple kept in MonitoringManager.error_counter. -/
structure ErrStats where
  count : Nat
  last_message : String
  last_occurrence : Option Int
deriving DecidableEq, Repr

/-- The in-process mutable state of MonitoringManager: both Python dicts,
modelled as association lists in insertion order. -/
structure MonState where
  command_counter : List (String × CmdStats)
  error_counter : List (String × ErrStats)
deriving DecidableEq, Repr

/-- Key lookup in a Python dict modelled as an association list. -/
def lookupS {B : Type} (l : List (String × B)) (k : String) : Option B :=
  match l with
  | [] => none
  | kv :: tl => if k = kv.1 then some kv.2 else lookupS tl k

/-- Mutate the stats mapped to one key of a Python dict modelled as an
association list, leaving every other entry alone. -/
def updEntry {B : Type} (l : List (String × B)) (k : String) (f : B → B) :
    List (String × B) :=
  l.map (fun kv => if k = kv.1 then (kv.1, f kv.2) else kv)

/-- track_command of monitoring.py: ensure the command has an entry, then
bump count, add the duration to the running sum, and bump the success or
failure counter. A negative duration is added to the sum as-is. -/
def track_command (st : MonState) (name : String) (success : Bool)
    (duration : Rat) : MonState :=
  let l0 := if (lookupS st.command_counter name).isSome then st.command_counter
            else st.command_counter ++ [(name, ⟨0, 0, 0, 0⟩)]
  { st with command_counter :=
      updEntry l0 name (fun c =>
        { success := if success then c.success + 1 else c.success
          failure := if success then c.failure else c.failure + 1
          total_duration := c.total_duration + duration
          count := c.count + 1 }) }

/-- track_error of monitoring.py: ensure the error type has an entry, then
bump its counter and overwrite last message and last occurrence. -/
def track_error (st : MonState) (etype msg : String) (now : Int) : MonState :=
  let l0 := if (lookupS st.error_counter etype).isSome then st.error_counter
            else st.error_counter ++ [(etype, ⟨0, "", none⟩)]
  { st with error_counter :=
      updEntry l0 etype (fun c =>
        { count := c.count + 1, last_message := msg,
          last_occurrence := some now }) }

/-- What one pass through the monitor_command wrapper leaves behind: the
updated monitoring state and the value or exception handed to the caller. -/
structure WrapRun (A : Type) where
  state : MonState
  result : Except String A
deriving Repr

/-- The monitor_command wrapper of monitoring.py around one invocation of
the wrapped callable: on a normal return the finally clause records a
successful command; on an exception the handler records a command_error,
the finally clause records a failed command, and the exception is
re-raised; the callable outcome itself is passed through. -/
def monitor_command_run {A : Type} (name : String) (st : MonState)
    (blk : Except String A) (duration : Rat) (now : Int) : WrapRun A :=
  match blk with
  | .ok a => { state := track_command st name true duration, result := .ok a }
  | .error e =>
      { state := track_command (track_error st "command_error" e now)
                   name false duration
        result := .error e }

/-- C3: the monitor_command wrapper is observationally transparent: whatever
monitoring state it starts from, the value or exception it hands back is
exactly the outcome of the wrapped callable, never swallowed or altered. -/
theorem monitor_command_preserves_result {A : Type} (name : String)
    (st : MonState) (blk : Except String A) (duration : Rat) (now : Int) :
    (monitor_command_run name st blk duration now).result = blk := by
  cases blk <;> rfl

/-- The running latency sum stored for one operation name, 0 before any
call for that name. -/
def totalDurationOf (st : MonState) (name : String) : Rat :=
  match lookupS st.command_counter name with
  | some c => c.total_duration
  | none => 0

lemma lookup_updEntry {B : Type} (l : List (String × B)) (k : String)
    (f : B → B) : lookupS (updEntry l k f) k = (lookupS l k).map f := by
  induction l with
  | nil => rfl
  | cons hd tl ih =>
      by_cases h : k = hd.1
      · simp [updEntry, lookupS, h]
      · simpa [updEntry, lookupS, h] using ih

lemma lookupS_append_of_none {B : Type} (l1 l2 : List (String × B))
    (k : String) (h : lookupS l1 k = none) :
    lookupS (l1 ++ l2) k = lookupS l2 k := by
  induction l1 with
  | nil => rfl
  | cons hd tl ih =>
      by_cases hk : k = hd.1
      · simp [lookupS, hk] at h
      · simp [lookupS, hk] at h ⊢
        exact ih h

/-- C8 counterexample: track_command with latency -5 on a fresh monitoring
state stores a running latency sum of -5, strictly below the prior sum 0:
the negative latency is neither clamped to 0 nor rejected before the state
mutation. -/
theorem track_command_negative_decreases :
    totalDurationOf (track_command ⟨[], []⟩ "x" true (-5)) "x" = -5
    ∧ totalDurationOf (track_command ⟨[], []⟩ "x" true (-5)) "x"
        < totalDurationOf ⟨[], []⟩ "x" := by
  have hv : totalDurationOf (track_command ⟨[], []⟩ "x" true (-5)) "x" = -5 := by
    simp [track_command, totalDurationOf, updEntry, lookupS]
  refine ⟨hv, ?_⟩
  rw [hv]
  show (-5 : Rat) < totalDurationOf ⟨[], []⟩ "x"
  norm_num [totalDurationOf, lookupS]

/-- C8 amended: track_command accumulates the given latency as-is into the
running sum for the command, with no clamping and no rejection, so the sum
decreases exactly when the latency is negative. -/
theorem track_command_accumulates_as_is (st : MonState) (name : String)
    (success : Bool) (duration : Rat) :
    totalDurationOf (track_command st name success duration) name
      = totalDurationOf st name + duration := by
  unfold track_command totalDurationOf
  by_cases h : (lookupS st.command_counter name).isSome = true
  · rcases Option.isSome_iff_exists.mp h with ⟨c, hc⟩
    simp [h, lookup_updEntry, hc]
  · have hn : lookupS st.command_counter name = none :=
      Option.not_isSome_iff_eq_none.mp h
    simp only [hn, Option.isSome_none, Bool.false_eq_true, if_false]
    rw [lookup_updEntry, lookupS_append_of_none _ _ _ hn]
    simp [lookupS]

/-- The dictionary get_metrics_summary would assemble if its body reached
the return statement. -/
structure MetricsSummary where
  total_commands : Nat
  successful_commands : Nat
  success_rate : Rat
  command_breakdown : List (String × Nat)
  avg_response_time : Int
  period_days : Int
deriving Repr

/-- Calling .label on a plain Python int: Query.count() executes eagerly
and returns an int, and an int has no attribute label, so the attribute
access raises. -/
def labelOnInt {A : Type} (_n : Nat) : Except String A :=
  .error "AttributeError: int object has no attribute label"

/-- Body of get_metrics_summary inside its try block (database.py). The
command-breakdown query ends in .count() followed by .label: count runs
eagerly and yields a plain int, and the .label call on that int raises
AttributeError, so the body never reaches its return statement; the
average-response-time step after it would raise too. -/
def get_metrics_summary_body (db : DB) (days now : Int) :
    Except String MetricsSummary := do
  let cutoff := now - days * 86400
  let inWindow := db.metrics.filter (fun m => decide (cutoff ≤ m.created_at))
  let total := inWindow.length
  let successful := (inWindow.filter (fun m => m.success)).length
  let breakdown : List (String × Nat) ← labelOnInt total
  let avg : Option Int ← labelOnInt total
  pure { total_commands := total
         successful_commands := successful
         success_rate :=
           if 0 < total then (successful : Rat) / (total : Rat) * 100 else 0
         command_breakdown := breakdown
         avg_response_time := avg.getD 0
         period_days := days }

/-- The inner scalar of the average-response-time step, for reference:
Query.scalar() returns the first matching value, that is the response_time
of the first in-window row having one, not an average over the window. The
body raises before ever reaching this step. -/
def avg_inner_scalar (db : DB) (days now : Int) : Option Int :=
  ((db.metrics.filter (fun m =>
      decide (now - days * 86400 ≤ m.created_at)
        && m.response_time.isSome)).head?).bind (fun m => m.response_time)

/-- get_metrics_summary of database.py: the empty dict (None here) when
storage is unavailable, and otherwise the try body, whose exception is
swallowed into the empty dict as well. -/
def get_metrics_summary (avail : Bool) (db : DB) (days now : Int) :
    Option MetricsSummary :=
  if avail then
    match get_metrics_summary_body db days now with
    | .ok s => some s
    | .error _ => none
  else none

/-- One successful vehicle_query record with the given latency, recorded
inside the summary window. -/
def vqRow (rt : Int) : BotMetricsRow :=
  { user_id := "U1", command := "vehicle_query", launch_date := none,
    response_time := some rt, success := true, error_message := none,
    created_at := 999 }

/-- The Scenario C store: three successful vehicle_query records with
latencies 100, 200 and 300 within the window. -/
def scenarioC_db : DB :=
  { sessions := [], metrics := [vqRow 100, vqRow 200, vqRow 300], nextId := 1 }

/-- C4: at the Scenario C input (three successful vehicle_query records
with latencies 100, 200, 300 inside a 30-day window) get_metrics_summary
returns the empty dict instead of the claimed totals, because the breakdown
step raises AttributeError inside the try block and the handler swallows
it; moreover the scalar the average step would fetch is the first latency
100, not the arithmetic mean 200. -/
theorem get_metrics_summary_scenario_c :
    get_metrics_summary true scenarioC_db 30 1000 = none
    ∧ avg_inner_scalar scenarioC_db 30 1000 = some 100 := by
  constructor
  · rfl
  · rfl

/-- The status and message pair health_check hands to its consumer. -/
structure HealthPayload where
  status : String
  message : String
deriving DecidableEq, Repr

/-- health_check of database.py: unavailable when no engine is configured,
unavailable when the session factory is missing, healthy when the probe
query returns, and unhealthy with the exception text interpolated into the
message when the probe raises. -/
def health_check (engine sessionLocal : Bool)
    (probe : Except String Unit) : HealthPayload :=
  if !engine then { status := "unavailable", message := "Database not configured" }
  else if !sessionLocal then
    { status := "unavailable", message := "Database session failed" }
  else
    match probe with
    | .ok _ => { status := "healthy", message := "Database connection successful" }
    | .error e => { status := "unhealthy", message := "Database error: " ++ e }

/-- C6 counterexample: with storage configured and the probe raising an
exception whose text is boom, the payload message is the raw exception text
appended to a fixed prelude, so the message does contain raw exception
text. -/
theorem health_check_message_embeds_exception :
    (health_check true true (.error "boom")).status = "unhealthy"
    ∧ (health_check true true (.error "boom")).message
        = "Database error: " ++ "boom" :=
  ⟨rfl, rfl⟩

/-- C6 amended: health_check always reports one of the three statuses under
the stated conditions — unavailable when no engine is configured or the
session factory is missing, healthy when the probe succeeds, unhealthy when
it raises — but the unhealthy message embeds the raw exception text after
the fixed prelude. -/
theorem health_check_status_classification (engine sessionLocal : Bool)
    (probe : Except String Unit) :
    (health_check engine sessionLocal probe).status ∈
        (["healthy", "unhealthy", "unavailable"] : List String)
    ∧ (engine = false →
        (health_check engine sessionLocal probe).status = "unavailable")
    ∧ (engine = true → sessionLocal = false →
        (health_check engine sessionLocal probe).status = "unavailable")
    ∧ (engine = true → sessionLocal = true → probe = .ok () →
        (health_check engine sessionLocal probe).status = "healthy")
    ∧ (∀ e, engine = true → sessionLocal = true → probe = .error e →
        (health_check engine sessionLocal probe).status = "unhealthy"
        ∧ (health_check engine sessionLocal probe).message
            = "Database error: " ++ e) := by
  cases engine <;> cases sessionLocal <;> cases probe <;>
    simp [health_check]

theorem health_check_status_classification_witness :
    (health_check false true (.ok ())).status = "unavailable"
    ∧ (health_check true true (.ok ())).status = "healthy"
    ∧ (health_check true true (.error "down")).status = "unhealthy" :=
  ⟨(health_check_status_classification false true (.ok ())).2.1 rfl,
   (health_check_status_classification true true (.ok ())).2.2.2.1 rfl rfl rfl,
   ((health_check_status_classification true true
      (.error "down")).2.2.2.2 "down" rfl rfl rfl).1⟩

/-- Age test issued by cleanup_old_data: rows whose created_at is strictly
older than the retention date are deleted; a non-timestamp created_at never
compares true. -/
def sessionExpired (cutoff : Int) (r : UserSessionRow) : Bool :=
  match r.created_at with
  | .vint t => decide (t < cutoff)
  | _ => false

/-- cleanup_old_data of database.py: delete user_sessions and bot_metrics
rows strictly older than the retention date computed from the configured
horizon. The function only logs the two deletion counts and has no return
statement, so the caller always receives None; on the unavailable branch it
is a no-op that also returns None and never raises. -/
def cleanup_old_data (avail : Bool) (db : DB) (retentionDays now : Int) :
    DB × Option Int :=
  if avail then
    let cutoff := now - retentionDays * 86400
    ({ sessions := db.sessions.filter (fun r => !sessionExpired cutoff r)
       metrics := db.metrics.filter (fun m => !(decide (m.created_at < cutoff)))
       nextId := db.nextId }, none)
  else (db, none)

/-- A session row created at time 0, long past any retention horizon. -/
def staleSession : UserSessionRow := freshRow "U1" "2023-01-01" none none 0 1

/-- A metric row recorded at time 0, long past any retention horizon. -/
def staleMetric : BotMetricsRow :=
  { user_id := "U1", command := "upload", launch_date := none,
    response_time := none, success := true, error_message := none,
    created_at := 0 }

/-- A store holding exactly one expired session and one expired metric. -/
def staleDB : DB := { sessions := [staleSession], metrics := [staleMetric], nextId := 2 }

/-- C7 counterexample: purging a store holding two expired rows with a
30-day horizon deletes both rows yet hands back None, not the count 2; and
the unavailable no-op hands back None as well, not zero. -/
theorem cleanup_old_data_returns_none :
    (cleanup_old_data true staleDB 30 (31 * 86400)).2 = none
    ∧ (cleanup_old_data true staleDB 30 (31 * 86400)).1.sessions = []
    ∧ (cleanup_old_data true staleDB 30 (31 * 86400)).1.metrics = []
    ∧ (cleanup_old_data true staleDB 30 (31 * 86400)).2 ≠ some 2
    ∧ (cleanup_old_data false staleDB 30 (31 * 86400)).2 ≠ some 0 := by
  refine ⟨rfl, rfl, rfl, by decide, by decide⟩

/-- C7 amended: on an available gateway cleanup_old_data keeps exactly the
rows at or after the retention date and deletes every strictly older row,
for both tables; it returns None rather than a deletion count (the counts
are only logged); and on an unavailable gateway it is a no-op that returns
None and never raises. -/
theorem cleanup_old_data_deletes_old_rows (db : DB) (retentionDays now : Int) :
    (∀ r : UserSessionRow,
        r ∈ (cleanup_old_data true db retentionDays now).1.sessions
          ↔ r ∈ db.sessions
            ∧ sessionExpired (now - retentionDays * 86400) r = false)
    ∧ (∀ m : BotMetricsRow,
        m ∈ (cleanup_old_data true db retentionDays now).1.metrics
          ↔ m ∈ db.metrics ∧ ¬(m.created_at < now - retentionDays * 86400))
    ∧ (cleanup_old_data true db retentionDays now).2 = none
    ∧ cleanup_old_data false db retentionDays now = (db, none) := by
  refine ⟨?_, ?_, rfl, rfl⟩
  · intro r
    simp [cleanup_old_data, List.mem_filter]
  · intro m
    simp [cleanup_old_data, List.mem_filter]

/-- The mapped attributes of a UserSession ORM object, the names hasattr
recognises in update_user_session. -/
inductive Attr where
  | id
  | user_id
  | launch_date
  | databricks_data
  | file_data
  | created_at
  | updated_at
  | is_active
deriving DecidableEq, Repr

/-- The column name of a mapped attribute. -/
def attrName : Attr → String
  | .id => "id"
  | .user_id => "user_id"
  | .launch_date => "launch_date"
  | .databricks_data => "databricks_data"
  | .file_data => "file_data"
  | .created_at => "created_at"
  | .updated_at => "updated_at"
  | .is_active => "is_active"

/-- Resolve a keyword name to a mapped attribute; none models a hasattr
check that fails. -/
def attrOfString (k : String) : Option Attr :=
  if k = "id" then some .id
  else if k = "user_id" then some .user_id
  else if k = "launch_date" then some .launch_date
  else if k = "databricks_data" then some .databricks_data
  else if k = "file_data" then some .file_data
  else if k = "created_at" then some .created_at
  else if k = "updated_at" then some .updated_at
  else if k = "is_active" then some .is_active
  else none

/-- Read one mapped attribute of a row. -/
def getAttr (r : UserSessionRow) : Attr → Value
  | .id => r.id
  | .user_id => r.user_id
  | .launch_date => r.launch_date
  | .databricks_data => r.databricks_data
  | .file_data => r.file_data
  | .created_at => r.created_at
  | .updated_at => r.updated_at
  | .is_active => r.is_active

/-- setattr on one mapped attribute of a row. -/
def setAttr (r : UserSessionRow) (a : Attr) (v : Value) : UserSessionRow :=
  match a with
  | .id => { r with id := v }
  | .user_id => { r with user_id := v }
  | .launch_date => { r with launch_date := v }
  | .databricks_data => { r with databricks_data := v }
  | .file_data => { r with file_data := v }
  | .created_at => { r with created_at := v }
  | .updated_at => { r with updated_at := v }
  | .is_active => { r with is_active := v }

/-- The isinstance(value, dict) branch of update_user_session: a live dict
value is stored as its JSON text, every other value as-is. -/
def serializeArg : Value → Value
  | .vdict d => .vjson d
  | v => v

/-- One keyword of update_user_session: applied only when the name resolves
to an existing attribute, otherwise silently ignored. -/
def applyKwarg (r : UserSessionRow) (kv : String × Value) : UserSessionRow :=
  match attrOfString kv.1 with
  | some a => setAttr r a (serializeArg kv.2)
  | none => r

/-- All keywords of update_user_session in order, then the updated_at
bump. -/
def applyKwargs (kwargs : List (String × Value)) (now : Int)
    (r : UserSessionRow) : UserSessionRow :=
  { (kwargs.foldl applyKwarg r) with updated_at := .vint now }

/-- Mutate the first active row the query returns, leaving every other row
untouched; identity when no row matches. -/
def updateFirstActive (uid : String) (f : UserSessionRow → UserSessionRow) :
    List UserSessionRow → List UserSessionRow
  | [] => []
  | r :: rs =>
      if isActiveFor uid r then f r :: rs
      else r :: updateFirstActive uid f rs

/-- update_user_session of database.py: a no-op when storage is unavailable
or when no active row exists; otherwise the keyword updates are applied to
the first active row of the user and updated_at is bumped. -/
def update_user_session (avail : Bool) (db : DB) (uid : String)
    (kwargs : List (String × Value)) (now : Int) : DB :=
  if avail then
    { db with sessions :=
        updateFirstActive uid (applyKwargs kwargs now) db.sessions }
  else db

lemma getAttr_setAttr_same (r : UserSessionRow) (a : Attr) (v : Value) :
    getAttr (setAttr r a v) a = v := by
  cases a <;> rfl

lemma getAttr_setAttr_ne (r : UserSessionRow) (a b : Attr) (v : Value)
    (h : a ≠ b) : getAttr (setAttr r a v) b = getAttr r b := by
  cases a <;> cases b <;> first | rfl | exact absurd rfl h

lemma attrOfString_attrName (a : Attr) : attrOfString (attrName a) = some a := by
  cases a <;> rfl

lemma attrOfString_eq_some (k : String) (a : Attr)
    (h : attrOfString k = some a) : k = attrName a := by
  unfold attrOfString at h
  split_ifs at h <;> injection h with h0 <;> subst h0 <;> assumption

lemma getAttr_foldl_not_mem (kwargs : List (String × Value))
    (r : UserSessionRow) (a : Attr)
    (h : attrName a ∉ kwargs.map Prod.fst) :
    getAttr (kwargs.foldl applyKwarg r) a = getAttr r a := by
  induction kwargs generalizing r with
  | nil => rfl
  | cons kv tl ih =>
      simp only [List.map_cons, List.mem_cons, not_or] at h
      rw [List.foldl_cons, ih _ (by simpa using h.2)]
      unfold applyKwarg
      cases hk : attrOfString kv.1 with
      | none => rfl
      | some b =>
          have hb : kv.1 = attrName b := attrOfString_eq_some kv.1 b hk
          have hab : b ≠ a := by
            intro hba
            exact h.1 (by rw [hb, hba])
          exact getAttr_setAttr_ne r b a _ hab

lemma getAttr_foldl_applied (l1 l2 : List (String × Value))
    (r : UserSessionRow) (a : Attr) (v : Value)
    (h2 : attrName a ∉ l2.map Prod.fst) :
    getAttr ((l1 ++ (attrName a, v) :: l2).foldl applyKwarg r) a
      = serializeArg v := by
  rw [List.foldl_append, List.foldl_cons]
  rw [getAttr_foldl_not_mem l2 _ a h2]
  show getAttr (applyKwarg (l1.foldl applyKwarg r) (attrName a, v)) a = _
  unfold applyKwarg
  simp only [attrOfString_attrName]
  exact getAttr_setAttr_same _ a _

lemma getAttr_applyKwargs_ne (kwargs : List (String × Value)) (now : Int)
    (r : UserSessionRow) (a : Attr) (h : a ≠ .updated_at) :
    getAttr (applyKwargs kwargs now r) a
      = getAttr (kwargs.foldl applyKwarg r) a := by
  unfold applyKwargs
  cases a <;> first | rfl | exact absurd rfl h

/-- C10: update_user_session touches only the first active row of the user;
on that row a keyword whose name is no mapped attribute is silently
ignored, a keyword naming a mapped attribute is applied with dict values
serialized to JSON text, updated_at is bumped to the update time, and every
mapped attribute not named by the keywords (other than updated_at) keeps
its prior value. -/
theorem update_user_session_applies_and_frames (db : DB) (uid : String)
    (kwargs : List (String × Value)) (now : Int) (r : UserSessionRow)
    (hnd : (kwargs.map Prod.fst).Nodup) :
    (update_user_session true db uid kwargs now).sessions
        = updateFirstActive uid (applyKwargs kwargs now) db.sessions
    ∧ (∀ k v, attrOfString k = none → applyKwarg r (k, v) = r)
    ∧ getAttr (applyKwargs kwargs now r) .updated_at = .vint now
    ∧ (∀ a : Attr, a ≠ .updated_at → attrName a ∉ kwargs.map Prod.fst →
        getAttr (applyKwargs kwargs now r) a = getAttr r a)
    ∧ (∀ (a : Attr) (v : Value), a ≠ .updated_at →
        (attrName a, v) ∈ kwargs →
        getAttr (applyKwargs kwargs now r) a = serializeArg v) := by
  refine ⟨rfl, ?_, rfl, ?_, ?_⟩
  · intro k v hk
    unfold applyKwarg
    rw [hk]
  · intro a ha hmem
    rw [getAttr_applyKwargs_ne kwargs now r a ha]
    exact getAttr_foldl_not_mem kwargs r a hmem
  · intro a v ha hmem
    rcases List.append_of_mem hmem with ⟨l1, l2, hsplit⟩
    have hns : attrName a ∉ l2.map Prod.fst := by
      have : (l1.map Prod.fst ++ attrName a :: l2.map Prod.fst).Nodup := by
        simpa [hsplit] using hnd
      have h3 := (List.nodup_append.mp this).2.1
      exact (List.nodup_cons.mp h3).1
    rw [getAttr_applyKwargs_ne kwargs now r a ha, hsplit]
    exact getAttr_foldl_applied l1 l2 r a v hns

/-- A concrete active row used to instantiate the update theorem. -/
def activeRow : UserSessionRow := freshRow "U1" "2024-03-15" none none 3 1

/-- Concrete keyword updates: one mapped attribute, one unknown name. -/
def exampleKwargs : List (String × Value) :=
  [("launch_date", Value.vstr "2024-05-01"), ("bogus", Value.vstr "x")]

theorem update_user_session_applies_and_frames_witness :
    getAttr (applyKwargs exampleKwargs 7 activeRow) .launch_date
        = Value.vstr "2024-05-01"
    ∧ getAttr (applyKwargs exampleKwargs 7 activeRow) .updated_at
        = Value.vint 7
    ∧ getAttr (applyKwargs exampleKwargs 7 activeRow) .user_id
        = getAttr activeRow .user_id :=
  ⟨(update_user_session_applies_and_frames emptyDB "U1" exampleKwargs 7
      activeRow (by decide)).2.2.2.2 .launch_date (Value.vstr "2024-05-01")
      (by decide) (by decide),
   (update_user_session_applies_and_frames emptyDB "U1" exampleKwargs 7
      activeRow (by decide)).2.2.1,
   (update_user_session_applies_and_frames emptyDB "U1" exampleKwargs 7
      activeRow (by decide)).2.2.2.1 .user_id (by decide) (by decide)⟩
